import Mathlib

/-!
Shallow embedding of the Visual Regression Diff Engine of
`node/site2ts-worker/src/diff.ts` (with helpers from `utils.ts`), together
with theorems settling the frozen claims about it.

Conventions of the embedding:
* JS numbers that hold pixel ratios / averages are modelled as `ℚ`
  (the quantities involved are exact small rationals);
* byte buffers (`PNG.data`) are `List Nat`, row-major RGBA, 4 bytes per
  pixel; out-of-range reads default to `0`;
* DOM bounding boxes (float, possibly fractional or negative) are `ℚ`;
* the filesystem is a predicate `path → Bool`; subprocess invocations are
  given by their observable outcome (`RunResult`).
-/

namespace Site2TS

/-- A decoded PNG: width, height and the flat RGBA byte buffer
(`PNG` from `pngjs`, as used by `diff.ts`). -/
structure PNGImage where
  width : Nat
  height : Nat
  data : List Nat
deriving DecidableEq, Repr

/-- Byte access into a buffer, defaulting to 0 out of range. -/
def byteAt (data : List Nat) (i : Nat) : Nat := data.getD i 0

/-- The character class of the final `routeToFolder`
`replace(/[^a-zA-Z0-9_-]/g, '_')` — the characters that are kept. -/
def isSafeChar (c : Char) : Bool :=
  (('a' ≤ c) && (c ≤ 'z')) || (('A' ≤ c) && (c ≤ 'Z')) ||
    (('0' ≤ c) && (c ≤ '9')) || (c == '_') || (c == '-')

/-- The `.replace(/^\//, '')` step: strip one leading slash if present. -/
def stripLeadingSlash (cs : List Char) : List Char :=
  match cs with
  | [] => []
  | c :: rest => if c = '/' then rest else c :: rest

/-- The function `routeToFolder` (diff.ts lines 35-38): the slash route
and the empty route map to `root`;
otherwise strip one leading slash, replace `/` with `_`, then replace every
character outside `[a-zA-Z0-9_-]` with `_`. -/
def routeToFolder (route : String) : String :=
  if route = "/" ∨ route = "" then "root"
  else
    String.mk
      (((stripLeadingSlash route.data).map (fun c => if c = '/' then '_' else c)).map
        (fun c => if isSafeChar c then c else '_'))

/-- The slug described by the spec sentence backing claim C9: strip one
leading slash, replace remaining slashes with `_`, replace every character
outside `[a-zA-Z0-9_-]` with `_` (stated independently of `routeToFolder`,
for comparison with it). -/
def slugSpec (route : String) : String :=
  String.mk
    ((stripLeadingSlash route.data).map
      (fun c => if c = '/' then '_' else if isSafeChar c then c else '_'))

/-- The classifier `isDiffPixel` (diff.ts lines 445-458). -/
def isDiffPixel (data : List Nat) (idx : Nat) : Bool :=
  let r := byteAt data idx
  let g := byteAt data (idx + 1)
  let b := byteAt data (idx + 2)
  let a := byteAt data (idx + 3)
  if a = 0 then false
  else
    let isHighlightRed := decide (200 ≤ r ∧ g ≤ 80 ∧ b ≤ 80)
    let isHighlightGreen := decide (200 ≤ g ∧ r ≤ 80 ∧ b ≤ 80)
    let isHighlightBlue := decide (200 ≤ b ∧ r ≤ 80 ∧ g ≤ 80)
    let isHighlightYellow := decide (200 ≤ r ∧ 200 ≤ g ∧ b ≤ 80)
    if isHighlightRed || isHighlightGreen || isHighlightBlue || isHighlightYellow then true
    else
      let nearlyWhite := decide (220 ≤ r ∧ 220 ≤ g ∧ 220 ≤ b)
      !nearlyWhite

/-! ### Pixel Comparator (diff.ts lines 184-215) -/

/-- One row of the row-by-row crop (diff.ts lines 192-207): the destination
PNG is zero-filled, and `Buffer.copy` overwrites the first
`min (4*width) (available)` bytes of the destination row with the source
bytes starting at `4 * y * srcWidth`. -/
def cropRow (data : List Nat) (srcWidth width y : Nat) : List Nat :=
  let row := (data.drop (4 * y * srcWidth)).take (4 * width)
  row ++ List.replicate (4 * width - row.length) 0

/-- The crop of a PNG to `width × height` by row-by-row copy from offset
(0,0) (diff.ts lines 192-207). -/
def cropImage (png : PNGImage) (width height : Nat) : PNGImage :=
  { width := width
    height := height
    data := ((List.range height).map (cropRow png.data png.width width)).flatten }

/-- Modelled from the spec: the structural pixel comparison is done by the
third-party library `pixelmatch`, which is not part of this repository.
Per the spec (§4.4) it scans the `width*height` pixel grid of the two
equal-sized cropped buffers, counts the pixels its per-pixel sensitivity
test flags as changed, and writes a highlight-encoded diff image.  The
per-pixel test and the produced diff bytes are abstracted as parameters;
the changed count is the number of flagged pixel positions. -/
structure PixelMatcher where
  flags : List Nat → List Nat → Nat → Bool
  diffBytes : List Nat → List Nat → Nat → Nat → List Nat

/-- The `changed` count returned by the modelled `pixelmatch` call
(diff.ts line 210): a count over the `width*height` pixel grid. -/
def pixelmatchChanged (pm : PixelMatcher) (base act : List Nat) (width height : Nat) : Nat :=
  (List.range (width * height)).countP (pm.flags base act)

/-- Result of the compare section of the per-route body
(diff.ts lines 185-214). -/
structure CompareResult where
  width : Nat
  height : Nat
  baselineCrop : PNGImage
  actualCrop : PNGImage
  diffPng : PNGImage
  changed : Nat
  total : Nat
  ratio : ℚ
deriving DecidableEq, Repr

/-- The conditional crop applied to each of the two images
(diff.ts lines 190-207): crop only when the dimensions differ from the
target, else reuse the decoded image unchanged. -/
def condCrop (png : PNGImage) (width height : Nat) : PNGImage :=
  if png.width ≠ width ∨ png.height ≠ height then cropImage png width height else png

/-- The compare section of the per-route body (diff.ts lines 185-214):
crop both images to the element-wise minimum dimensions when they differ,
run the comparator, and compute `ratio = total ? changed / total : 0`. -/
def compareImages (pm : PixelMatcher) (baselinePng actualPng : PNGImage) : CompareResult :=
  let width := min baselinePng.width actualPng.width
  let height := min baselinePng.height actualPng.height
  let baselineCrop := condCrop baselinePng width height
  let actualCrop := condCrop actualPng width height
  let diffPng : PNGImage :=
    { width := width, height := height
      data := pm.diffBytes baselineCrop.data actualCrop.data width height }
  let changed := pixelmatchChanged pm baselineCrop.data actualCrop.data width height
  let total := width * height
  { width := width, height := height
    baselineCrop := baselineCrop, actualCrop := actualCrop, diffPng := diffPng
    changed := changed, total := total
    ratio := if total = 0 then 0 else (changed : ℚ) / (total : ℚ) }

/-! ### Heatmap Aggregator (diff.ts lines 372-397) -/

/-- The byte indices visited by `for (let idx = 0; idx < len; idx += 4)`. -/
def pixelIdxs (len : Nat) : List Nat := (List.range ((len + 3) / 4)).map (· * 4)

/-- Increment a counter map at index `i`. -/
def bump (f : Nat → Nat) (i : Nat) : Nat → Nat :=
  fun j => if j = i then f j + 1 else f j

/-- Grid cell index of the pixel at byte index `idx`
(diff.ts lines 377-382): `row = min(rows-1, ⌊y/height*rows⌋)`,
`col = min(cols-1, ⌊x/width*cols⌋)`, `cellIndex = row*cols+col`. -/
def cellIndexOfIdx (width height rows cols idx : Nat) : Nat :=
  let pixelIndex := idx / 4
  let x := pixelIndex % width
  let y := pixelIndex / width
  let row := min (rows - 1) (y * rows / height)
  let col := min (cols - 1) (x * cols / width)
  row * cols + col

/-- One iteration of the heatmap accumulation loop (diff.ts lines 376-385):
bump the cell total, and the cell changed-count when the pixel classifies
as changed. -/
def heatStep (data : List Nat) (width height rows cols : Nat)
    (acc : (Nat → Nat) × (Nat → Nat)) (idx : Nat) : (Nat → Nat) × (Nat → Nat) :=
  let cellIndex := cellIndexOfIdx width height rows cols idx
  (bump acc.1 cellIndex, if isDiffPixel data idx then bump acc.2 cellIndex else acc.2)

/-- The accumulated `(cellTotals, cellChanged)` counters of `buildHeatmap`
(diff.ts lines 373-385). -/
def heatCounts (data : List Nat) (width height rows cols : Nat) :
    (Nat → Nat) × (Nat → Nat) :=
  (pixelIdxs data.length).foldl (heatStep data width height rows cols)
    (fun _ => 0, fun _ => 0)

/-- A heatmap cell `{cell, ratio}`. -/
structure HeatCell where
  cell : String
  ratio : ℚ
deriving DecidableEq, Repr

/-- The aggregator `buildHeatmap` (diff.ts lines 372-397). -/
def buildHeatmap (diffPng : PNGImage) (width height rows cols : Nat) : List HeatCell :=
  let counts := heatCounts diffPng.data width height rows cols
  ((List.range rows).map (fun r =>
    (List.range cols).map (fun c =>
      let idx := r * cols + c
      let total := counts.1 idx
      let changed := counts.2 idx
      { cell := "r" ++ toString r ++ "c" ++ toString c
        ratio := if total = 0 then (0 : ℚ) else (changed : ℚ) / (total : ℚ) }))).flatten

/-! ### Zone Scorer (diff.ts lines 399-443) -/

/-- A DOM bounding box as captured in the browser: viewport-relative
floats, possibly fractional or negative. -/
structure DomBounds where
  x : ℚ
  y : ℚ
  width : ℚ
  height : ℚ
deriving DecidableEq, Repr

/-- A captured DOM zone (the fields `summarizeZones` uses). -/
structure DomZone where
  selector : String
  label : String
  tag : String
  bounds : DomBounds
deriving DecidableEq, Repr

/-- Integer pixel bounds after clipping. -/
structure IntBounds where
  x : ℤ
  y : ℤ
  width : ℤ
  height : ℤ
deriving DecidableEq, Repr

/-- The per-zone clipping stat of `summarizeZones`
(diff.ts lines 402-418): `x1 = max(0, ⌊x⌋)`, `y1 = max(0, ⌊y⌋)`,
`x2 = min(width, ⌈x+w⌉)`, `y2 = min(height, ⌈y+h⌉)`,
`total = max(0, (x2-x1)*(y2-y1))`, clipped bounds with per-axis clamping. -/
structure ZoneStat where
  selector : String
  label : String
  tag : String
  bounds : IntBounds
  x1 : ℤ
  y1 : ℤ
  x2 : ℤ
  y2 : ℤ
  total : ℤ
  changed : Nat
deriving DecidableEq, Repr

/-- Clip one zone to the image (diff.ts lines 402-418). -/
def clipZone (width height : Nat) (zone : DomZone) : ZoneStat :=
  let x1 : ℤ := max 0 (Int.floor zone.bounds.x)
  let y1 : ℤ := max 0 (Int.floor zone.bounds.y)
  let x2 : ℤ := min (width : ℤ) (Int.ceil (zone.bounds.x + zone.bounds.width))
  let y2 : ℤ := min (height : ℤ) (Int.ceil (zone.bounds.y + zone.bounds.height))
  { selector := zone.selector, label := zone.label, tag := zone.tag
    bounds := { x := x1, y := y1, width := max 0 (x2 - x1), height := max 0 (y2 - y1) }
    x1 := x1, y1 := y1, x2 := x2, y2 := y2
    total := max 0 ((x2 - x1) * (y2 - y1))
    changed := 0 }

/-- The changed-pixel counting pass of `summarizeZones`
(diff.ts lines 420-430): for every changed pixel, bump every zone whose
clipped box contains it. -/
def zonePass (data : List Nat) (width : Nat) (stats : List ZoneStat) : List ZoneStat :=
  (pixelIdxs data.length).foldl
    (fun acc idx =>
      if isDiffPixel data idx then
        let pixelIndex := idx / 4
        let x : ℤ := (pixelIndex % width : Nat)
        let y : ℤ := (pixelIndex / width : Nat)
        acc.map (fun zone =>
          if zone.x1 ≤ x ∧ x < zone.x2 ∧ zone.y1 ≤ y ∧ y < zone.y2 then
            { zone with changed := zone.changed + 1 }
          else zone)
      else acc)
    stats

/-- A reported zone score. -/
structure ZoneOut where
  selector : String
  label : String
  tag : String
  bounds : IntBounds
  diffRatio : ℚ
deriving DecidableEq, Repr

/-- Stable descending insertion by `diffRatio`: the model of the stable
JS `Array.sort((a, b) => b.diffRatio - a.diffRatio)` (diff.ts line 441). -/
def insertDescByRatio (z : ZoneOut) : List ZoneOut → List ZoneOut
  | [] => [z]
  | w :: ws => if w.diffRatio < z.diffRatio then z :: w :: ws else w :: insertDescByRatio z ws

/-- Stable descending sort by `diffRatio` (diff.ts line 441). -/
def sortDescByRatio : List ZoneOut → List ZoneOut
  | [] => []
  | z :: zs => insertDescByRatio z (sortDescByRatio zs)

/-- The zone scorer `summarizeZones` (diff.ts lines 399-443). -/
def summarizeZones (diffPng : PNGImage) (width height : Nat) (zones : List DomZone) :
    List ZoneOut :=
  if zones = [] then []
  else
    let stats := zones.map (clipZone width height)
    let counted := zonePass diffPng.data width stats
    ((counted.filter (fun zone => 0 < zone.total)).map (fun zone =>
      { selector := zone.selector, label := zone.label, tag := zone.tag
        bounds := zone.bounds
        diffRatio :=
          if zone.total = (0 : ℤ) then (0 : ℚ)
          else (zone.changed : ℚ) / ((zone.total : ℤ) : ℚ) })
      |> sortDescByRatio).take 12

/-! ### Supervisor helpers (`utils.ts`) and the Diff Orchestrator
(diff.ts `diff`, lines 51-272) -/

/-- Observable outcome of a `run(cmd, args, cwd, {timeoutMs})` call
(utils.ts lines 50-81). -/
structure RunResult where
  code : Int
  stdout : String
  stderr : String
  timedOut : Bool
deriving DecidableEq, Repr

/-- The structured `data` payloads attached by `rpcError` call sites. -/
inductive ErrData where
  | stepTimeout (step : String) (timeoutMs : Nat)
  | stepFailed (step : String) (exitCode : Int) (stdout stderr : String)
  | urlTimeout (url : String) (timeoutMs : Nat)
deriving DecidableEq, Repr

/-- A structured error as built by `rpcError(code, message, data?)`
(utils.ts lines 96-101). -/
structure RpcErr where
  code : Int
  message : String
  data : Option ErrData := none
deriving DecidableEq, Repr

/-- The filesystem as observed through `pathExists` (utils.ts lines 87-94). -/
structure FS where
  pathExists : String → Bool

/-- Override the observed existence of one path. -/
def FS.setPath (fsys : FS) (p0 : String) (b : Bool) : FS :=
  ⟨fun p => if p = p0 then b else fsys.pathExists p⟩

/-- The helper `ensureDeps(staging)` (utils.ts lines 124-146): skip when
`node_modules` exists; otherwise run `npm ci` (lock file present) or
`npm install`, failing with code -32009 on timeout or non-zero exit.
The invoked `npm` subprocess is abstracted by its outcome `runner args`. -/
def ensureDeps (fsys : FS) (runner : List String → RunResult) (staging : String) :
    Except RpcErr Unit :=
  if fsys.pathExists (staging ++ "/node_modules") then .ok ()
  else
    let hasLock := fsys.pathExists (staging ++ "/package-lock.json")
    let args := if hasLock then ["ci"] else ["install"]
    let res := runner args
    if res.timedOut then
      .error { code := -32009
               message := "dependency install timed out after 300s running npm " ++
                 (args.headD "")
               data := some (.stepTimeout ("npm " ++ args.headD "") 300000) }
    else if res.code ≠ 0 then
      .error { code := -32009
               message := "dependency install failed running npm " ++ (args.headD "")
               data := some (.stepFailed ("npm " ++ args.headD "") res.code res.stdout res.stderr) }
    else .ok ()

/-- The path of the analysis artifact checked first (diff.ts line 62). -/
def analysisJsonPath : String := ".site2ts/staging/meta/analysis.json"

/-- The path of the generation artifact checked second (diff.ts line 66). -/
def fallbacksJsonPath : String := ".site2ts/reports/tailwind/fallbacks.json"

/-- The staging directory handed to `ensureDeps` (diff.ts lines 59, 73). -/
def stagingDirPath : String := ".site2ts/staging"

/-- The dependency manifest of the application inside the staging directory
(`package.json`; never consulted by the code). -/
def manifestPath : String := ".site2ts/staging/package.json"

/-- The precondition phase of `diff` (diff.ts lines 62-73): check
`analysis.json` (error -32004), then `fallbacks.json` (error -32005), then
`ensureDeps` (error -32009 on install failure). -/
def diffPreconditions (fsys : FS) (runner : List String → RunResult) : Except RpcErr Unit :=
  if ¬ fsys.pathExists analysisJsonPath then
    .error { code := -32004, message := "analysis.json missing; run analyze before diff" }
  else if ¬ fsys.pathExists fallbacksJsonPath then
    .error { code := -32005, message := "generation artifacts missing; run generate before diff" }
  else ensureDeps fsys runner stagingDirPath

/-- Lifecycle state of the spawned staging server process. -/
inductive ServerState where
  | notSpawned
  | running
  | killed
deriving DecidableEq, Repr

/-- The body of the build-and-serve `try` block (diff.ts lines 109-144):
build (timeout -32008, non-zero exit -32008), spawn the server, poll the
root URL (readiness timeout -32008).  Returns the outcome together with
whether the server process was spawned. -/
def buildServeTry (buildRes : RunResult) (serveOk : Bool) (port : Nat) :
    Except RpcErr Unit × Bool :=
  if buildRes.timedOut then
    (.error { code := -32008
              message := "visual diff timed out running npm run build in staging"
              data := some (.stepTimeout "npm run build" 300000) }, false)
  else if buildRes.code ≠ 0 then
    (.error { code := -32008
              message := "visual diff failed running npm run build in staging"
              data := some (.stepFailed "npm run build" buildRes.code buildRes.stdout buildRes.stderr) },
      false)
  else if serveOk then (.ok (), true)
  else
    (.error { code := -32008
              message := "visual diff timed out waiting for staging server at http://localhost:" ++
                toString port ++ "/"
              data := some (.urlTimeout ("http://localhost:" ++ toString port ++ "/") 30000) },
      true)

/-- The build-and-serve phase with its `catch` handler applied
(diff.ts lines 109-155): on any error the spawned server (if any) is
killed before the error propagates. -/
def buildServe (buildRes : RunResult) (serveOk : Bool) (port : Nat) :
    Except RpcErr Unit × ServerState :=
  match buildServeTry buildRes serveOk port with
  | (.ok _, spawned) => (.ok (), if spawned then .running else .notSpawned)
  | (.error e, spawned) => (.error e, if spawned then .killed else .notSpawned)

/-- One progress event as emitted by `emitProgress` (utils.ts 103-122);
the free-form `extra` record is omitted from the model. -/
structure ProgressEvent where
  tool : String
  phase : String
  detail : Option String := none
  current : Option Nat := none
  total : Option Nat := none
deriving DecidableEq, Repr

/-- A route entry of the analysis route list (the fields `diff` uses). -/
structure RouteInfo where
  route : String
  sourceUrl : String
deriving DecidableEq, Repr

/-- The per-route environment observed by the loop body: the cached
baseline image (`none` when missing/unreadable, which makes the
`try` throw and the route be skipped) and the outcome of `renderActual`
(`none` when it throws). -/
structure RouteEnv where
  baseline : Option PNGImage
  render : Option (PNGImage × List DomZone)
deriving Repr

/-- One entry pushed onto `perRoute` (diff.ts lines 246-253; artifact
paths and `summaryPath`, which are derived from `routeToFolder`, are
represented by the folder slug). -/
structure PerRouteEntry where
  route : String
  diffRatio : ℚ
  heatmap : List HeatCell
  domZones : List ZoneOut
  folder : String
deriving DecidableEq, Repr

/-- The loop body for one route (diff.ts lines 157-257).  Returns the
entry pushed onto `perRoute` (`none` when the route is skipped) and the
progress events emitted for this route.  `serverUp` is whether the staging
server is running; `cur`/`tot` feed the generic per-route progress event.
On a render failure the `catch` falls back to the baseline as the actual
image silently (no additional event is emitted). -/
def processRoute (pm : PixelMatcher) (serverUp : Bool) (r : RouteInfo) (env : RouteEnv)
    (cur tot : Nat) : Option PerRouteEntry × List ProgressEvent :=
  let routeEvents :=
    if serverUp then
      [{ tool := "diff", phase := "route", detail := some r.route
         current := some cur, total := some tot : ProgressEvent }]
    else []
  let actualAndZones : Option (Option PNGImage × List DomZone) :=
    if serverUp then
      match env.render with
      | some (img, zones) => some (some img, zones)
      | none => some (none, [])
    else some (none, [])
  match env.baseline with
  | none => (none, routeEvents)
  | some baselinePng =>
    match actualAndZones with
    | none => (none, routeEvents)
    | some (actual?, domZones) =>
      let actualPng := actual?.getD baselinePng
      let c := compareImages pm baselinePng actualPng
      let heatmap := buildHeatmap c.diffPng c.width c.height 4 4
      let zoneSummaries := summarizeZones c.diffPng c.width c.height domZones
      (some { route := r.route, diffRatio := c.ratio, heatmap := heatmap
              domZones := zoneSummaries, folder := routeToFolder r.route },
        routeEvents)

/-- The route loop (diff.ts lines 157-257): fold over the analysis route
list, pushing entries and emitting events; `current` is the number of
entries pushed so far. -/
def routeLoop (pm : PixelMatcher) (serverUp : Bool) (tot : Nat)
    (routes : List (RouteInfo × RouteEnv)) : List PerRouteEntry × List ProgressEvent :=
  routes.foldl
    (fun acc r =>
      let step := processRoute pm serverUp r.1 r.2 acc.1.length tot
      (acc.1 ++ step.1.toList, acc.2 ++ step.2))
    ([], [])

/-- The run summary `{passed, failed, avg}` (diff.ts lines 265-271). -/
structure DiffSummary where
  passed : Nat
  failed : Nat
  avg : ℚ
deriving DecidableEq, Repr

/-- The `summary` computation (diff.ts lines 265-269). -/
def summaryOf (threshold : ℚ) (perRoute : List PerRouteEntry) : DiffSummary :=
  let avg : ℚ :=
    if perRoute.length = 0 then 0
    else (perRoute.map (fun p => p.diffRatio)).sum / (perRoute.length : ℚ)
  let passed := (perRoute.filter (fun p => p.diffRatio ≤ threshold)).length
  let failed := perRoute.length - passed
  { passed := passed, failed := failed, avg := avg }

/-- The whole `diff` run (diff.ts lines 51-272), abstracted over its
environment: filesystem, install runner, build outcome, server readiness,
allocated port, comparator and the per-route environments.  Returns the
RPC result (or structured error), the final state of the spawned server
process, and the list of per-route artifact folders written (empty when
the run aborts before the loop). -/
def diffRun (fsys : FS) (runner : List String → RunResult) (buildRes : RunResult)
    (serveOk : Bool) (port : Nat) (pm : PixelMatcher)
    (routes : List (RouteInfo × RouteEnv)) (threshold : ℚ) :
    Except RpcErr (List PerRouteEntry × DiffSummary) × ServerState × List String :=
  match diffPreconditions fsys runner with
  | .error e => (.error e, .notSpawned, [])
  | .ok _ =>
    match buildServe buildRes serveOk port with
    | (.error e, st) => (.error e, st, [])
    | (.ok _, st) =>
      let serverUp := st = ServerState.running
      let loop := routeLoop pm serverUp routes.length routes
      let perRoute := loop.1
      -- after the loop the server (if running) is killed (diff.ts 259-263)
      (.ok (perRoute, summaryOf threshold perRoute), .killed,
        perRoute.map (fun p => p.folder))

/-! ## Theorems -/

/-- Claim C5: for every pixel value (r,g,b,a), `isDiffPixel` classifies the
pixel as changed iff `a ≠ 0` and (one of the four highlight signatures holds
— red `r≥200 ∧ g≤80 ∧ b≤80`, green `g≥200 ∧ r≤80 ∧ b≤80`, blue
`b≥200 ∧ r≤80 ∧ g≤80`, yellow `r≥200 ∧ g≥200 ∧ b≤80` — or the pixel is not
near-white, i.e. not `r≥220 ∧ g≥220 ∧ b≥220`). -/
theorem C5_isDiffPixel_characterization (data : List Nat) (idx : Nat) :
    isDiffPixel data idx = true ↔
      (byteAt data (idx + 3) ≠ 0 ∧
        ((200 ≤ byteAt data idx ∧ byteAt data (idx + 1) ≤ 80 ∧ byteAt data (idx + 2) ≤ 80) ∨
         (200 ≤ byteAt data (idx + 1) ∧ byteAt data idx ≤ 80 ∧ byteAt data (idx + 2) ≤ 80) ∨
         (200 ≤ byteAt data (idx + 2) ∧ byteAt data idx ≤ 80 ∧ byteAt data (idx + 1) ≤ 80) ∨
         (200 ≤ byteAt data idx ∧ 200 ≤ byteAt data (idx + 1) ∧ byteAt data (idx + 2) ≤ 80) ∨
         ¬(220 ≤ byteAt data idx ∧ 220 ≤ byteAt data (idx + 1) ∧
            220 ≤ byteAt data (idx + 2)))) := by
  unfold isDiffPixel
  by_cases ha : byteAt data (idx + 3) = 0
  · simp [ha]
  · by_cases h1 : 200 ≤ byteAt data idx ∧ byteAt data (idx + 1) ≤ 80 ∧
        byteAt data (idx + 2) ≤ 80 <;>
      by_cases h2 : 200 ≤ byteAt data (idx + 1) ∧ byteAt data idx ≤ 80 ∧
        byteAt data (idx + 2) ≤ 80 <;>
      by_cases h3 : 200 ≤ byteAt data (idx + 2) ∧ byteAt data idx ≤ 80 ∧
        byteAt data (idx + 1) ≤ 80 <;>
      by_cases h4 : 200 ≤ byteAt data idx ∧ 200 ≤ byteAt data (idx + 1) ∧
        byteAt data (idx + 2) ≤ 80 <;>
      by_cases h5 : 220 ≤ byteAt data idx ∧ 220 ≤ byteAt data (idx + 1) ∧
        220 ≤ byteAt data (idx + 2) <;>
      simp [ha, h1, h2, h3, h4, h5]

/-- Claim C9 counterexample: the claim sends every route other than `"/"`
through the slug transformation, but `routeToFolder` maps the empty string
to `"root"` while the slug of `""` is `""`. -/
theorem C9_empty_route_counterexample :
    ("" : String) ≠ "/" ∧ routeToFolder "" = "root" ∧ slugSpec "" = "" := by
  refine ⟨by decide, rfl, rfl⟩

/-- Claim C9 (amended): `routeToFolder` maps `"/"` AND the empty string to
`"root"`, and every other route to the slug obtained by stripping one
leading `/`, replacing every remaining `/` with `_`, and replacing every
character outside `[a-zA-Z0-9_-]` with `_`. -/
theorem C9_routeToFolder_slug (route : String) :
    routeToFolder route = if route = "/" ∨ route = "" then "root" else slugSpec route := by
  unfold routeToFolder slugSpec
  by_cases h : route = "/" ∨ route = ""
  · simp [h]
  · simp only [h, if_false, ite_false, List.map_map]
    have hfun : ((fun c => if isSafeChar c then c else '_') ∘
          fun c => if c = '/' then '_' else c) =
        fun c => if c = '/' then '_' else if isSafeChar c then c else '_' := by
      funext c
      by_cases hc : c = '/'
      · subst hc
        simp [isSafeChar]
      · simp [Function.comp, hc]
    rw [hfun]

/-- Helper: stripping the leading slash of a non-empty list that is not
`['/']` leaves a non-empty list. -/
lemma stripLeadingSlash_ne_nil (cs : List Char) (h0 : cs ≠ []) (h1 : cs ≠ ['/']) :
    stripLeadingSlash cs ≠ [] := by
  cases cs with
  | nil => exact absurd rfl h0
  | cons c rest =>
    unfold stripLeadingSlash
    by_cases hc : c = '/'
    · subst hc
      cases rest with
      | nil => exact absurd rfl h1
      | cons b t => simp
    · simp [hc]

/-- Claim C10: `routeToFolder` maps `""` to `"root"`, and for every input
its output is non-empty and consists only of characters in
`[a-zA-Z0-9_-]`. -/
theorem C10_routeToFolder_total_safety :
    routeToFolder "" = "root" ∧
      ∀ route : String, routeToFolder route ≠ "" ∧
        (routeToFolder route).data.all isSafeChar = true := by
  refine ⟨rfl, fun route => ?_⟩
  unfold routeToFolder
  by_cases h : route = "/" ∨ route = ""
  · simp only [h, if_true, ite_true]
    exact ⟨by decide, by decide⟩
  · simp only [h, if_false, ite_false]
    push_neg at h
    obtain ⟨hslash, hempty⟩ := h
    have hdata : route.data ≠ [] := by
      intro hd
      exact hempty (by cases route; simp_all [String.ext_iff])
    have hdata1 : route.data ≠ ['/'] := by
      intro hd
      exact hslash (by cases route; simp_all [String.ext_iff])
    have hstrip := stripLeadingSlash_ne_nil route.data hdata hdata1
    constructor
    · intro hmk
      have : (((stripLeadingSlash route.data).map
          (fun c => if c = '/' then '_' else c)).map
            (fun c => if isSafeChar c then c else '_')) = [] := by
        simpa [String.ext_iff] using hmk
      simp only [List.map_eq_nil_iff] at this
      exact hstrip this
    · rw [List.all_eq_true]
      intro x hx
      rcases List.mem_map.mp hx with ⟨y, _, rfl⟩
      by_cases hy : isSafeChar y = true
      · rw [if_pos hy]
        exact hy
      · rw [if_neg hy]
        decide

/-- A zone lying entirely outside a 4×4 image, beyond its top-left corner. -/
def outsideZone : DomZone :=
  { selector := "div#outside", label := "div#outside", tag := "div"
    bounds := { x := -100, y := -100, width := 50, height := 50 } }

/-- A blank (all-zero) 4×4 RGBA diff image. -/
def blankDiff4 : PNGImage := { width := 4, height := 4, data := List.replicate 64 0 }

/-- The clipping stat the code computes for `outsideZone` over a 4×4
image: the per-axis clipped box is empty, yet `total = 2500`. -/
def outsideStat : ZoneStat :=
  { selector := "div#outside", label := "div#outside", tag := "div"
    bounds := { x := 0, y := 0, width := 0, height := 0 }
    x1 := 0, y1 := 0, x2 := -50, y2 := -50, total := 2500, changed := 0 }

lemma clipZone_outsideZone : clipZone 4 4 outsideZone = outsideStat := by
  have hx : outsideZone.bounds.x = -100 := rfl
  have hy : outsideZone.bounds.y = -100 := rfl
  have haddx : outsideZone.bounds.x + outsideZone.bounds.width = -50 := by
    norm_num [outsideZone]
  have haddy : outsideZone.bounds.y + outsideZone.bounds.height = -50 := by
    norm_num [outsideZone]
  unfold clipZone
  rw [haddx, haddy, hx, hy]
  have hfl : (⌊(-100 : ℚ)⌋ : ℤ) = -100 := by decide
  have hcl : (⌈(-50 : ℚ)⌉ : ℤ) = -50 := by decide
  rw [hfl, hcl]
  unfold outsideStat
  decide

/-- Claim C2 (code bug): a zone whose box lies entirely outside the image
on BOTH axes is NOT dropped.  Clipping gives `x1 = 0 > x2 = -50` and
`y1 = 0 > y2 = -50`, so `(x2-x1)*(y2-y1) = 2500 > 0` and
`total = max(0, 2500) = 2500`, although the per-axis clipped box is empty
(width = height = 0).  The zone therefore survives the
`filter (0 < total)` and is reported, contradicting the claim (and the
spec) that such a zone has zero clipped area and is dropped. -/
theorem C2_outside_zone_not_dropped :
    ((summarizeZones blankDiff4 4 4 [outsideZone]).map fun z =>
        (z.selector, z.bounds.width, z.bounds.height)) = [("div#outside", 0, 0)] ∧
      (clipZone 4 4 outsideZone).total = 2500 := by
  have hpass : zonePass blankDiff4.data 4 [outsideStat] = [outsideStat] := by decide
  constructor
  · unfold summarizeZones
    rw [if_neg (by simp : ¬([outsideZone] : List DomZone) = [])]
    simp only [List.map_cons, List.map_nil, clipZone_outsideZone]
    rw [hpass]
    norm_num [outsideStat, sortDescByRatio, insertDescByRatio, List.filter]
  · rw [clipZone_outsideZone]
    decide

/-! ### Claim C4: dimension-mismatch cropping -/

lemma cropRow_length (data : List Nat) (srcWidth width y : Nat) :
    (cropRow data srcWidth width y).length = 4 * width := by
  unfold cropRow
  simp only [List.length_append, List.length_replicate, List.length_take, List.length_drop]
  omega

lemma cropRow_getD (data : List Nat) (srcWidth width y j : Nat) (hj : j < 4 * width) :
    (cropRow data srcWidth width y).getD j 0 = byteAt data (4 * y * srcWidth + j) := by
  unfold cropRow byteAt
  have htlen : ((data.drop (4 * y * srcWidth)).take (4 * width)).length =
      min (4 * width) (data.length - 4 * y * srcWidth) := by
    simp [List.length_take, List.length_drop]
  by_cases hcase : j < ((data.drop (4 * y * srcWidth)).take (4 * width)).length
  · rw [List.getD_append _ _ _ _ hcase]
    have hlen : 4 * y * srcWidth + j < data.length := by omega
    rw [List.getD_eq_getElem _ _ hcase, List.getD_eq_getElem _ _ hlen]
    rw [List.getElem_take, List.getElem_drop]
  · push_neg at hcase
    rw [List.getD_append_right _ _ _ _ hcase]
    have hrep : j - ((data.drop (4 * y * srcWidth)).take (4 * width)).length <
        4 * width - ((data.drop (4 * y * srcWidth)).take (4 * width)).length := by
      omega
    have hout : data.length ≤ 4 * y * srcWidth + j := by omega
    rw [List.getD_eq_default _ _ hout]
    have hcond : j - 4 * width ⊓ (data.length - 4 * y * srcWidth) <
        4 * width - 4 * width ⊓ (data.length - 4 * y * srcWidth) := by omega
    simp [List.getD, List.getElem?_replicate, htlen, hcond]

lemma flatten_uniform_getD (rows : List (List Nat)) (n : Nat)
    (hlen : ∀ r ∈ rows, r.length = n) (i j : Nat) (hj : j < n) :
    rows.flatten.getD (n * i + j) 0 = (rows.getD i []).getD j 0 := by
  induction rows generalizing i with
  | nil => simp [List.getD]
  | cons a rs ih =>
    have ha : a.length = n := hlen a (by simp)
    cases i with
    | zero =>
      simp only [Nat.mul_zero, Nat.zero_add, List.flatten_cons]
      rw [List.getD_append _ _ _ _ (by omega)]
      simp [List.getD]
    | succ i' =>
      simp only [List.flatten_cons]
      have hidx : n * (i' + 1) + j = a.length + (n * i' + j) := by
        rw [ha, Nat.mul_succ]
        ring
      rw [hidx, List.getD_append_right _ _ _ _ (Nat.le_add_right _ _)]
      simp only [Nat.add_sub_cancel_left]
      have := ih (fun r hr => hlen r (List.mem_cons_of_mem _ hr)) i'
      simpa [List.getD] using this

lemma cropImage_byteAt (png : PNGImage) (width height x y i : Nat)
    (hx : x < width) (hy : y < height) (hi : i < 4) :
    byteAt (cropImage png width height).data (4 * (y * width + x) + i) =
      byteAt png.data (4 * (y * png.width + x) + i) := by
  show ((List.range height).map (cropRow png.data png.width width)).flatten.getD
      (4 * (y * width + x) + i) 0 = _
  have hrows : ∀ r ∈ (List.range height).map (cropRow png.data png.width width),
      r.length = 4 * width := by
    intro r hr
    rcases List.mem_map.mp hr with ⟨k, _, rfl⟩
    exact cropRow_length _ _ _ _
  have hidx : 4 * (y * width + x) + i = (4 * width) * y + (4 * x + i) := by ring
  rw [hidx, flatten_uniform_getD _ _ hrows y (4 * x + i) (by omega)]
  have hgetrow : ((List.range height).map (cropRow png.data png.width width)).getD y [] =
      cropRow png.data png.width width y := by
    rw [List.getD_eq_getElem _ _ (by simp [hy])]
    simp
  rw [hgetrow, cropRow_getD _ _ _ _ _ (by omega)]
  unfold byteAt
  congr 1
  ring

lemma condCrop_dims (png : PNGImage) (w h : Nat) :
    (condCrop png w h).width = w ∧ (condCrop png w h).height = h := by
  unfold condCrop
  by_cases hc : png.width ≠ w ∨ png.height ≠ h
  · simp [hc, cropImage]
  · push_neg at hc
    simp [hc.1, hc.2]

lemma condCrop_byteAt (png : PNGImage) (w h x y i : Nat)
    (hx : x < w) (hy : y < h) (hi : i < 4) :
    byteAt (condCrop png w h).data (4 * (y * w + x) + i) =
      byteAt png.data (4 * (y * png.width + x) + i) := by
  unfold condCrop
  by_cases hc : png.width ≠ w ∨ png.height ≠ h
  · rw [if_pos hc]
    exact cropImage_byteAt png w h x y i hx hy hi
  · rw [if_neg hc]
    push_neg at hc
    rw [hc.1]

/-- Claim C4: when baseline and actual differ in dimensions, the Pixel
Comparator crops both to the element-wise minimum width and height by
row-by-row copy from offset (0,0) — every pixel byte of each cropped image
at (x,y) equals the byte of the source image at the same (x,y) — never scaling
or erroring, and reports `ratio = changed/total` with
`total = croppedWidth * croppedHeight`, `ratio = 0` when `total = 0`. -/
theorem C4_crop_to_min_dimensions (pm : PixelMatcher) (baselinePng actualPng : PNGImage) :
    (compareImages pm baselinePng actualPng).width =
        min baselinePng.width actualPng.width ∧
      (compareImages pm baselinePng actualPng).height =
        min baselinePng.height actualPng.height ∧
      (compareImages pm baselinePng actualPng).baselineCrop.width =
        (compareImages pm baselinePng actualPng).width ∧
      (compareImages pm baselinePng actualPng).baselineCrop.height =
        (compareImages pm baselinePng actualPng).height ∧
      (compareImages pm baselinePng actualPng).actualCrop.width =
        (compareImages pm baselinePng actualPng).width ∧
      (compareImages pm baselinePng actualPng).actualCrop.height =
        (compareImages pm baselinePng actualPng).height ∧
      (∀ x y i, x < (compareImages pm baselinePng actualPng).width →
        y < (compareImages pm baselinePng actualPng).height → i < 4 →
          byteAt (compareImages pm baselinePng actualPng).baselineCrop.data
              (4 * (y * (compareImages pm baselinePng actualPng).width + x) + i) =
            byteAt baselinePng.data (4 * (y * baselinePng.width + x) + i) ∧
          byteAt (compareImages pm baselinePng actualPng).actualCrop.data
              (4 * (y * (compareImages pm baselinePng actualPng).width + x) + i) =
            byteAt actualPng.data (4 * (y * actualPng.width + x) + i)) ∧
      (compareImages pm baselinePng actualPng).total =
        (compareImages pm baselinePng actualPng).width *
          (compareImages pm baselinePng actualPng).height ∧
      (compareImages pm baselinePng actualPng).ratio =
        (if (compareImages pm baselinePng actualPng).total = 0 then 0
         else ((compareImages pm baselinePng actualPng).changed : ℚ) /
           ((compareImages pm baselinePng actualPng).total : ℚ)) := by
  refine ⟨rfl, rfl, (condCrop_dims _ _ _).1, (condCrop_dims _ _ _).2,
    (condCrop_dims _ _ _).1, (condCrop_dims _ _ _).2, ?_, rfl, rfl⟩
  intro x y i hx hy hi
  exact ⟨condCrop_byteAt _ _ _ _ _ _ hx hy hi, condCrop_byteAt _ _ _ _ _ _ hx hy hi⟩

/-- Claim C4 witness: a 2×1 baseline against a 1×2 actual is compared at
1×1 and the cropped pixels equal the originals at (0,0). -/
theorem C4_crop_witness :
    ((0 : Nat) < (compareImages ⟨fun _ _ _ => false, fun _ _ _ _ => []⟩
        ⟨2, 1, [1, 2, 3, 4, 5, 6, 7, 8]⟩ ⟨1, 2, [9, 10, 11, 12, 13, 14, 15, 16]⟩).width ∧
      (0 : Nat) < 1 ∧ (0 : Nat) < 4) ∧
      (compareImages ⟨fun _ _ _ => false, fun _ _ _ _ => []⟩
        ⟨2, 1, [1, 2, 3, 4, 5, 6, 7, 8]⟩ ⟨1, 2, [9, 10, 11, 12, 13, 14, 15, 16]⟩).width = 1 ∧
      byteAt (compareImages ⟨fun _ _ _ => false, fun _ _ _ _ => []⟩
        ⟨2, 1, [1, 2, 3, 4, 5, 6, 7, 8]⟩ ⟨1, 2, [9, 10, 11, 12, 13, 14, 15, 16]⟩).baselineCrop.data 0 =
        byteAt [1, 2, 3, 4, 5, 6, 7, 8] 0 := by
  have h := C4_crop_to_min_dimensions ⟨fun _ _ _ => false, fun _ _ _ _ => []⟩
    ⟨2, 1, [1, 2, 3, 4, 5, 6, 7, 8]⟩ ⟨1, 2, [9, 10, 11, 12, 13, 14, 15, 16]⟩
  refine ⟨⟨?_, by decide, by decide⟩, ?_, ?_⟩
  · rw [h.1]
    decide
  · rw [h.1]
    decide
  · have := (h.2.2.2.2.2.2.1 0 0 0 (by rw [h.1]; decide) (by rw [h.2.1]; decide)
      (by decide)).1
    simpa using this

/-! ### Claim C6: the 4×4 heatmap grid -/

/-- The row assignment of the claim: `min 3 ⌊y/height*4⌋`. -/
def cellRowSpec (height y : Nat) : Nat := min 3 (y * 4 / height)

/-- The column assignment of the claim: `min 3 ⌊x/width*4⌋`. -/
def cellColSpec (width x : Nat) : Nat := min 3 (x * 4 / width)

/-- The per-cell pixel total of the claim: the number of pixels assigned to
grid position (r, c). -/
def heatCellTotalSpec (width height r c : Nat) : Nat :=
  ((List.range (width * height)).filter (fun p =>
    cellRowSpec height (p / width) = r ∧ cellColSpec width (p % width) = c)).length

/-- The per-cell changed count of the claim: the number of changed pixels
assigned to grid position (r, c). -/
def heatCellChangedSpec (data : List Nat) (width height r c : Nat) : Nat :=
  ((List.range (width * height)).filter (fun p =>
    (cellRowSpec height (p / width) = r ∧ cellColSpec width (p % width) = c) ∧
      isDiffPixel data (4 * p))).length

lemma foldl_heatStep_apply (data : List Nat) (w h R C : Nat) (l : List Nat)
    (f g : Nat → Nat) (i : Nat) :
    ((l.foldl (heatStep data w h R C) (f, g)).1 i =
        f i + (l.filter (fun idx => cellIndexOfIdx w h R C idx = i)).length) ∧
      ((l.foldl (heatStep data w h R C) (f, g)).2 i =
        g i + (l.filter (fun idx =>
          cellIndexOfIdx w h R C idx = i ∧ isDiffPixel data idx)).length) := by
  induction l generalizing f g with
  | nil => simp
  | cons a t ih =>
    simp only [List.foldl_cons, List.filter_cons]
    have hstep : heatStep data w h R C (f, g) a =
        (bump f (cellIndexOfIdx w h R C a),
          if isDiffPixel data a then bump g (cellIndexOfIdx w h R C a) else g) := rfl
    rw [hstep]
    have hih := ih (bump f (cellIndexOfIdx w h R C a))
      (if isDiffPixel data a then bump g (cellIndexOfIdx w h R C a) else g)
    constructor
    · rw [hih.1]
      by_cases hca : cellIndexOfIdx w h R C a = i
      · subst hca
        simp [bump]
        omega
      · simp [bump, hca, Ne.symm hca]
    · rw [hih.2]
      by_cases hca : cellIndexOfIdx w h R C a = i
      · subst hca
        by_cases hd : isDiffPixel data a
        · simp [bump, hd]
          omega
        · simp [bump, hd]
      · by_cases hd : isDiffPixel data a
        · simp [bump, hca, Ne.symm hca, hd]
        · simp [bump, hca, hd]

lemma heatCounts_apply (data : List Nat) (w h R C i : Nat) :
    (heatCounts data w h R C).1 i =
        ((pixelIdxs data.length).filter
          (fun idx => cellIndexOfIdx w h R C idx = i)).length ∧
      (heatCounts data w h R C).2 i =
        ((pixelIdxs data.length).filter (fun idx =>
          cellIndexOfIdx w h R C idx = i ∧ isDiffPixel data idx)).length := by
  have := foldl_heatStep_apply data w h R C (pixelIdxs data.length)
    (fun _ => 0) (fun _ => 0) i
  simpa [heatCounts] using this

lemma cellIndexOfIdx_mul4 (w h p : Nat) :
    cellIndexOfIdx w h 4 4 (4 * p) =
      cellRowSpec h (p / w) * 4 + cellColSpec w (p % w) := by
  unfold cellIndexOfIdx cellRowSpec cellColSpec
  have h4 : 4 * p / 4 = p := by omega
  simp only [h4]

lemma heatCounts_spec (data : List Nat) (w h : Nat) (hlen : data.length = 4 * (w * h))
    (r c : Nat) (hr : r < 4) (hc : c < 4) :
    (heatCounts data w h 4 4).1 (r * 4 + c) = heatCellTotalSpec w h r c ∧
      (heatCounts data w h 4 4).2 (r * 4 + c) = heatCellChangedSpec data w h r c := by
  have happly := heatCounts_apply data w h 4 4 (r * 4 + c)
  have hpix : pixelIdxs data.length = (List.range (w * h)).map (· * 4) := by
    have hn : (4 * (w * h) + 3) / 4 = w * h := by omega
    unfold pixelIdxs
    rw [hlen, hn]
  have hcell : ∀ p : Nat,
      (cellIndexOfIdx w h 4 4 (4 * p) = r * 4 + c) ↔
        (cellRowSpec h (p / w) = r ∧ cellColSpec w (p % w) = c) := by
    intro p
    rw [cellIndexOfIdx_mul4]
    have h1 : cellRowSpec h (p / w) ≤ 3 := min_le_left _ _
    have h2 : cellColSpec w (p % w) ≤ 3 := min_le_left _ _
    omega
  constructor
  · rw [happly.1, hpix, List.filter_map]
    rw [List.length_map]
    unfold heatCellTotalSpec
    congr 1
    apply List.filter_congr
    intro p _
    simp only [Function.comp]
    rw [decide_eq_decide]
    rw [Nat.mul_comm p 4]
    exact hcell p
  · rw [happly.2, hpix, List.filter_map]
    rw [List.length_map]
    unfold heatCellChangedSpec
    congr 1
    apply List.filter_congr
    intro p _
    simp only [Function.comp]
    rw [decide_eq_decide]
    rw [Nat.mul_comm p 4]
    exact and_congr (hcell p) Iff.rfl

/-- Claim C6: `buildHeatmap` on a well-formed diff image partitions it
into the fixed 4×4 grid — pixel (x,y) is assigned to row
`min 3 ⌊y·4/height⌋` and column `min 3 ⌊x·4/width⌋` — and outputs exactly
one cell per grid position in row-major order (r0c0, r0c1, …, r3c3), with
`ratio = changed/total` for the cell and `ratio = 0` for a cell with zero
total. -/
theorem C6_buildHeatmap_grid (diffPng : PNGImage) (width height : Nat)
    (hlen : diffPng.data.length = 4 * (width * height)) :
    buildHeatmap diffPng width height 4 4 =
      ((List.range 4).map (fun r =>
        (List.range 4).map (fun c =>
          { cell := "r" ++ toString r ++ "c" ++ toString c
            ratio := if heatCellTotalSpec width height r c = 0 then (0 : ℚ)
              else (heatCellChangedSpec diffPng.data width height r c : ℚ) /
                (heatCellTotalSpec width height r c : ℚ) : HeatCell }))).flatten := by
  simp only [buildHeatmap]
  congr 1
  apply List.map_eq_map_iff.mpr
  intro r hr
  apply List.map_eq_map_iff.mpr
  intro c hc
  have hr4 : r < 4 := List.mem_range.mp hr
  have hc4 : c < 4 := List.mem_range.mp hc
  have hspec := heatCounts_spec diffPng.data width height hlen r c hr4 hc4
  simp only [hspec.1, hspec.2]

/-- Claim C6 witness: the theorem applied to a concrete 1×1 blank image. -/
theorem C6_buildHeatmap_witness :
    (PNGImage.mk 1 1 [0, 0, 0, 0]).data.length = 4 * (1 * 1) ∧
      buildHeatmap (PNGImage.mk 1 1 [0, 0, 0, 0]) 1 1 4 4 =
        ((List.range 4).map (fun r =>
          (List.range 4).map (fun c =>
            { cell := "r" ++ toString r ++ "c" ++ toString c
              ratio := if heatCellTotalSpec 1 1 r c = 0 then (0 : ℚ)
                else (heatCellChangedSpec (PNGImage.mk 1 1 [0, 0, 0, 0]).data 1 1 r c : ℚ) /
                  (heatCellTotalSpec 1 1 r c : ℚ) : HeatCell }))).flatten :=
  ⟨rfl, C6_buildHeatmap_grid (PNGImage.mk 1 1 [0, 0, 0, 0]) 1 1 rfl⟩

/-! ### Claim C7: input preconditions -/

/-- A runner whose subprocesses succeed immediately. -/
def runnerStub : List String → RunResult := fun _ => { code := 0, stdout := "", stderr := "", timedOut := false }

/-- A filesystem with both artifacts present and dependencies installed,
but no dependency manifest. -/
def fsNoManifest : FS :=
  ⟨fun p => p == analysisJsonPath || p == fallbacksJsonPath ||
    p == ".site2ts/staging/node_modules"⟩

/-- Claim C7 counterexample: the claim says `diff` checks that the
dependency manifest of the application exists, producing a distinct error.  On
a filesystem where the manifest is absent (but the two artifacts and
`node_modules` are present) the precondition phase of `diff` succeeds: the
existence of the manifest is never checked. -/
theorem C7_missing_manifest_counterexample :
    fsNoManifest.pathExists manifestPath = false ∧
      diffPreconditions fsNoManifest runnerStub = .ok () := by
  constructor
  · decide
  · rfl

/-- Claim C7 (amended): before any other work `diff` checks two artifact
preconditions, each with a distinct error — the analysis artifact
(-32004), then the generation artifacts (-32005) — and then ensures
dependencies are installed, which is skipped entirely when `node_modules`
exists and fails with a third distinct error (-32009) only when the
install step itself times out or exits non-zero; the dependency
existence of the manifest is never consulted. -/
theorem C7_precondition_phase (fsys : FS) (runner : List String → RunResult) :
    (∀ b : Bool, diffPreconditions (fsys.setPath manifestPath b) runner =
        diffPreconditions fsys runner) ∧
      (fsys.pathExists analysisJsonPath = false →
        diffPreconditions fsys runner =
          .error { code := -32004, message := "analysis.json missing; run analyze before diff" }) ∧
      (fsys.pathExists analysisJsonPath = true →
        fsys.pathExists fallbacksJsonPath = false →
        diffPreconditions fsys runner =
          .error { code := -32005, message := "generation artifacts missing; run generate before diff" }) ∧
      (fsys.pathExists analysisJsonPath = true →
        fsys.pathExists fallbacksJsonPath = true →
        fsys.pathExists (stagingDirPath ++ "/node_modules") = true →
        diffPreconditions fsys runner = .ok ()) ∧
      (fsys.pathExists analysisJsonPath = true →
        fsys.pathExists fallbacksJsonPath = true →
        fsys.pathExists (stagingDirPath ++ "/node_modules") = false →
        (runner ["ci"]).timedOut = true → (runner ["install"]).timedOut = true →
        ∃ e, diffPreconditions fsys runner = .error e ∧ e.code = -32009) ∧
      ((-32004 : Int) ≠ -32005 ∧ (-32004 : Int) ≠ -32009 ∧ (-32005 : Int) ≠ -32009) := by
  refine ⟨?_, ?_, ?_, ?_, ?_, by decide, by decide, by decide⟩
  · intro b
    unfold diffPreconditions ensureDeps
    have h1 : (fsys.setPath manifestPath b).pathExists analysisJsonPath =
        fsys.pathExists analysisJsonPath := by
      show (if analysisJsonPath = manifestPath then b else fsys.pathExists analysisJsonPath) = _
      rw [if_neg (by decide : ¬ (analysisJsonPath = manifestPath))]
    have h2 : (fsys.setPath manifestPath b).pathExists fallbacksJsonPath =
        fsys.pathExists fallbacksJsonPath := by
      show (if fallbacksJsonPath = manifestPath then b else fsys.pathExists fallbacksJsonPath) = _
      rw [if_neg (by decide : ¬ (fallbacksJsonPath = manifestPath))]
    have h3 : (fsys.setPath manifestPath b).pathExists (stagingDirPath ++ "/node_modules") =
        fsys.pathExists (stagingDirPath ++ "/node_modules") := by
      show (if stagingDirPath ++ "/node_modules" = manifestPath then b
        else fsys.pathExists (stagingDirPath ++ "/node_modules")) = _
      rw [if_neg (by decide : ¬ (stagingDirPath ++ "/node_modules" = manifestPath))]
    have h4 : (fsys.setPath manifestPath b).pathExists (stagingDirPath ++ "/package-lock.json") =
        fsys.pathExists (stagingDirPath ++ "/package-lock.json") := by
      show (if stagingDirPath ++ "/package-lock.json" = manifestPath then b
        else fsys.pathExists (stagingDirPath ++ "/package-lock.json")) = _
      rw [if_neg (by decide : ¬ (stagingDirPath ++ "/package-lock.json" = manifestPath))]
    rw [h1, h2, h3, h4]
  · intro h
    simp [diffPreconditions, h]
  · intro h1 h2
    simp [diffPreconditions, h1, h2]
  · intro h1 h2 h3
    simp [diffPreconditions, ensureDeps, h1, h2, h3]
  · intro h1 h2 h3 hci hinstall
    simp only [diffPreconditions, ensureDeps, h1, h2, h3]
    by_cases hl : fsys.pathExists (stagingDirPath ++ "/package-lock.json") = true
    · simp [hl, hci]
    · simp only [Bool.not_eq_true] at hl
      simp [hl, hinstall]

/-- Claim C7 witness: the amended theorem applied at concrete
filesystems, discharging each hypothesis: a bare filesystem yields the
analysis error; `fsNoManifest` passes the phase; a filesystem with both
artifacts but no `node_modules` whose install times out yields -32009. -/
theorem C7_precondition_witness :
    diffPreconditions ⟨fun _ => false⟩ runnerStub =
        .error { code := -32004, message := "analysis.json missing; run analyze before diff" } ∧
      diffPreconditions fsNoManifest runnerStub = .ok () ∧
      (∃ e, diffPreconditions ⟨fun p => p == analysisJsonPath || p == fallbacksJsonPath⟩
          (fun _ => { code := 0, stdout := "", stderr := "", timedOut := true }) =
            .error e ∧ e.code = -32009) := by
  refine ⟨(C7_precondition_phase ⟨fun _ => false⟩ runnerStub).2.1 rfl, ?_, ?_⟩
  · exact (C7_precondition_phase fsNoManifest runnerStub).2.2.2.1 (by decide) (by decide)
      (by decide)
  · exact (C7_precondition_phase ⟨fun p => p == analysisJsonPath || p == fallbacksJsonPath⟩
      (fun _ => { code := 0, stdout := "", stderr := "", timedOut := true })).2.2.2.2.1
      (by decide) (by decide) (by decide) rfl rfl

/-! ### Claim C3: render-failure fallback -/

/-- A comparator stub that flags no pixel. -/
def pmStub : PixelMatcher := ⟨fun _ _ _ => false, fun _ _ _ _ => []⟩

/-- A 1×1 white image. -/
def whitePixel : PNGImage := ⟨1, 1, [255, 255, 255, 255]⟩

/-- The root route. -/
def rootRoute : RouteInfo := ⟨"/", "https://example.com/"⟩

/-- Claim C3 counterexample: for a route whose render fails while the
baseline exists, the per-route progress stream is IDENTICAL to that of a
route whose render succeeds — the catch block falls back silently and no
degraded-render signal distinguishable from a true pass is emitted —
although the route does appear in perRoute. -/
theorem C3_no_degraded_signal :
    (processRoute pmStub true rootRoute ⟨some whitePixel, none⟩ 0 1).2 =
        (processRoute pmStub true rootRoute
          ⟨some whitePixel, some (whitePixel, [])⟩ 0 1).2 ∧
      (processRoute pmStub true rootRoute ⟨some whitePixel, none⟩ 0 1).1.isSome = true := by
  exact ⟨rfl, rfl⟩

/-- Claim C3 (amended): when the headless render of a route fails while
the baseline exists, the loop body falls back to re-using the cached
baseline as the actual image — the route still appears in `perRoute`, its
`diffRatio` computed by comparing the baseline against itself and its
`domZones` empty — but NO degraded-render signal is emitted: the only
progress event is the generic per-route event, the same one a successful
render emits. -/
theorem C3_render_fallback (pm : PixelMatcher) (r : RouteInfo) (b : PNGImage)
    (cur tot : Nat) :
    (processRoute pm true r ⟨some b, none⟩ cur tot).1 =
        some { route := r.route
               diffRatio := (compareImages pm b b).ratio
               heatmap := buildHeatmap (compareImages pm b b).diffPng
                 (compareImages pm b b).width (compareImages pm b b).height 4 4
               domZones := []
               folder := routeToFolder r.route } ∧
      (processRoute pm true r ⟨some b, none⟩ cur tot).2 =
        [{ tool := "diff", phase := "route", detail := some r.route
           current := some cur, total := some tot }] ∧
      ∀ renderOutcome, (processRoute pm true r ⟨some b, none⟩ cur tot).2 =
        (processRoute pm true r ⟨some b, renderOutcome⟩ cur tot).2 := by
  refine ⟨rfl, rfl, fun renderOutcome => ?_⟩
  cases renderOutcome with
  | none => rfl
  | some p => rfl

/-! ### Claim C1: summary invariants -/

lemma pixelmatchChanged_le (pm : PixelMatcher) (b a : List Nat) (w h : Nat) :
    pixelmatchChanged pm b a w h ≤ w * h := by
  unfold pixelmatchChanged
  calc (List.range (w * h)).countP (pm.flags b a)
      ≤ (List.range (w * h)).length := List.countP_le_length _
    _ = w * h := List.length_range _

lemma compareImages_ratio_def (pm : PixelMatcher) (b a : PNGImage) :
    (compareImages pm b a).ratio =
      (if (compareImages pm b a).total = 0 then (0 : ℚ)
       else ((compareImages pm b a).changed : ℚ) / ((compareImages pm b a).total : ℚ)) := rfl

lemma compareImages_changed_le (pm : PixelMatcher) (b a : PNGImage) :
    (compareImages pm b a).changed ≤ (compareImages pm b a).total :=
  pixelmatchChanged_le pm _ _ _ _

lemma compareImages_ratio_bounds (pm : PixelMatcher) (b a : PNGImage) :
    0 ≤ (compareImages pm b a).ratio ∧ (compareImages pm b a).ratio ≤ 1 := by
  rw [compareImages_ratio_def]
  by_cases h0 : (compareImages pm b a).total = 0
  · simp [h0]
  · rw [if_neg h0]
    have hpos : (0 : ℚ) < ((compareImages pm b a).total : ℚ) := by
      exact_mod_cast Nat.pos_of_ne_zero h0
    constructor
    · exact div_nonneg (Nat.cast_nonneg _) (Nat.cast_nonneg _)
    · rw [div_le_one hpos]
      exact_mod_cast compareImages_changed_le pm b a

lemma processRoute_ratio_bounds (pm : PixelMatcher) (serverUp : Bool) (r : RouteInfo)
    (env : RouteEnv) (cur tot : Nat) (e : PerRouteEntry)
    (h : (processRoute pm serverUp r env cur tot).1 = some e) :
    0 ≤ e.diffRatio ∧ e.diffRatio ≤ 1 := by
  obtain ⟨baseline, render⟩ := env
  cases baseline with
  | none =>
    cases serverUp <;> simp [processRoute] at h
  | some b =>
    cases serverUp with
    | false =>
      rw [show (processRoute pm false r ⟨some b, render⟩ cur tot).1 =
          some { route := r.route, diffRatio := (compareImages pm b b).ratio
                 heatmap := buildHeatmap (compareImages pm b b).diffPng
                   (compareImages pm b b).width (compareImages pm b b).height 4 4
                 domZones := summarizeZones (compareImages pm b b).diffPng
                   (compareImages pm b b).width (compareImages pm b b).height []
                 folder := routeToFolder r.route } from rfl] at h
      rcases Option.some.inj h with rfl
      exact compareImages_ratio_bounds pm b b
    | true =>
      cases render with
      | none =>
        rw [show (processRoute pm true r ⟨some b, none⟩ cur tot).1 =
            some { route := r.route, diffRatio := (compareImages pm b b).ratio
                   heatmap := buildHeatmap (compareImages pm b b).diffPng
                     (compareImages pm b b).width (compareImages pm b b).height 4 4
                   domZones := summarizeZones (compareImages pm b b).diffPng
                     (compareImages pm b b).width (compareImages pm b b).height []
                   folder := routeToFolder r.route } from rfl] at h
        rcases Option.some.inj h with rfl
        exact compareImages_ratio_bounds pm b b
      | some pz =>
        rw [show (processRoute pm true r ⟨some b, some pz⟩ cur tot).1 =
            some { route := r.route, diffRatio := (compareImages pm b pz.1).ratio
                   heatmap := buildHeatmap (compareImages pm b pz.1).diffPng
                     (compareImages pm b pz.1).width (compareImages pm b pz.1).height 4 4
                   domZones := summarizeZones (compareImages pm b pz.1).diffPng
                     (compareImages pm b pz.1).width (compareImages pm b pz.1).height pz.2
                   folder := routeToFolder r.route } from rfl] at h
        rcases Option.some.inj h with rfl
        exact compareImages_ratio_bounds pm b pz.1

lemma routeLoop_foldl_ratio_bounds (pm : PixelMatcher) (serverUp : Bool) (tot : Nat) :
    ∀ (routes : List (RouteInfo × RouteEnv)) (acc : List PerRouteEntry × List ProgressEvent),
      (∀ e ∈ acc.1, 0 ≤ e.diffRatio ∧ e.diffRatio ≤ 1) →
      ∀ e ∈ (routes.foldl
        (fun acc r =>
          let step := processRoute pm serverUp r.1 r.2 acc.1.length tot
          (acc.1 ++ step.1.toList, acc.2 ++ step.2)) acc).1,
        0 ≤ e.diffRatio ∧ e.diffRatio ≤ 1 := by
  intro routes
  induction routes with
  | nil => intro acc hacc e he; exact hacc e he
  | cons r rs ih =>
    intro acc hacc e he
    refine ih _ ?_ e he
    intro e' he'
    rcases List.mem_append.mp he' with h1 | h2
    · exact hacc e' h1
    · have hsome : (processRoute pm serverUp r.1 r.2 acc.1.length tot).1 = some e' := by
        cases hopt : (processRoute pm serverUp r.1 r.2 acc.1.length tot).1 with
        | none => rw [hopt] at h2; simp [Option.toList] at h2
        | some x =>
          rw [hopt] at h2
          simp [Option.toList] at h2
          rw [h2]
      exact processRoute_ratio_bounds pm serverUp r.1 r.2 acc.1.length tot e' hsome

lemma routeLoop_ratio_bounds (pm : PixelMatcher) (serverUp : Bool) (tot : Nat)
    (routes : List (RouteInfo × RouteEnv)) :
    ∀ e ∈ (routeLoop pm serverUp tot routes).1, 0 ≤ e.diffRatio ∧ e.diffRatio ≤ 1 := by
  unfold routeLoop
  exact routeLoop_foldl_ratio_bounds pm serverUp tot routes ([], []) (by simp)

/-- Claim C1: for every completed run of `diff`, each per-route
`diffRatio` lies in [0,1]; `summary.passed` equals the number of perRoute
entries with `diffRatio ≤ threshold`; `passed + failed` equals
`perRoute.length`; and `summary.avg` equals the arithmetic mean of
`diffRatio` over all entries, or 0 when there are none. -/
theorem C1_summary_invariants (fsys : FS) (runner : List String → RunResult)
    (buildRes : RunResult) (serveOk : Bool) (port : Nat) (pm : PixelMatcher)
    (routes : List (RouteInfo × RouteEnv)) (threshold : ℚ)
    (entries : List PerRouteEntry) (s : DiffSummary) (st : ServerState)
    (written : List String)
    (h : diffRun fsys runner buildRes serveOk port pm routes threshold =
      (.ok (entries, s), st, written)) :
    (∀ e ∈ entries, 0 ≤ e.diffRatio ∧ e.diffRatio ≤ 1) ∧
      s.passed = (entries.filter (fun p => p.diffRatio ≤ threshold)).length ∧
      s.passed + s.failed = entries.length ∧
      s.avg = (if entries.length = 0 then (0 : ℚ)
        else (entries.map (fun p => p.diffRatio)).sum / (entries.length : ℚ)) := by
  unfold diffRun at h
  cases hpre : diffPreconditions fsys runner with
  | error e =>
    rw [hpre] at h
    simp at h
  | ok u =>
    rw [hpre] at h
    rcases hbs : buildServe buildRes serveOk port with ⟨res, st'⟩
    rw [hbs] at h
    cases res with
    | error e =>
      simp at h
    | ok u' =>
      simp only [Prod.mk.injEq, Except.ok.injEq] at h
      obtain ⟨⟨hentries, hsum⟩, _, _⟩ := h
      subst hentries
      subst hsum
      refine ⟨routeLoop_ratio_bounds pm _ _ routes, rfl, ?_, rfl⟩
      have hple : ((routeLoop pm (decide (st' = ServerState.running)) routes.length
          routes).1.filter (fun p => p.diffRatio ≤ threshold)).length ≤
            (routeLoop pm (decide (st' = ServerState.running)) routes.length routes).1.length :=
        List.length_filter_le _ _
      have hp : (summaryOf threshold
          (routeLoop pm (decide (st' = ServerState.running)) routes.length routes).1).passed =
            ((routeLoop pm (decide (st' = ServerState.running)) routes.length
              routes).1.filter (fun p => p.diffRatio ≤ threshold)).length := rfl
      have hf : (summaryOf threshold
          (routeLoop pm (decide (st' = ServerState.running)) routes.length routes).1).failed =
            (routeLoop pm (decide (st' = ServerState.running)) routes.length routes).1.length -
              ((routeLoop pm (decide (st' = ServerState.running)) routes.length
                routes).1.filter (fun p => p.diffRatio ≤ threshold)).length := rfl
      rw [hp, hf]
      omega

/-- Claim C1 witness: a concrete completed run (empty route list, all
preconditions satisfied, successful build and serve). -/
theorem C1_summary_witness :
    diffRun ⟨fun _ => true⟩ runnerStub { code := 0, stdout := "", stderr := "", timedOut := false }
        true 3100 pmStub [] (1 / 2) =
      (.ok ([], { passed := 0, failed := 0, avg := 0 }), .killed, []) ∧
      ((∀ e ∈ ([] : List PerRouteEntry), 0 ≤ e.diffRatio ∧ e.diffRatio ≤ 1) ∧
        (DiffSummary.mk 0 0 0).passed =
          (([] : List PerRouteEntry).filter (fun p => p.diffRatio ≤ (1 / 2 : ℚ))).length ∧
        (DiffSummary.mk 0 0 0).passed + (DiffSummary.mk 0 0 0).failed =
          ([] : List PerRouteEntry).length ∧
        (DiffSummary.mk 0 0 0).avg = (if ([] : List PerRouteEntry).length = 0 then (0 : ℚ)
          else (([] : List PerRouteEntry).map (fun p => p.diffRatio)).sum /
            (([] : List PerRouteEntry).length : ℚ))) := by
  have h : diffRun ⟨fun _ => true⟩ runnerStub
      { code := 0, stdout := "", stderr := "", timedOut := false } true 3100 pmStub [] (1 / 2) =
      (.ok ([], { passed := 0, failed := 0, avg := 0 }), .killed, []) := rfl
  exact ⟨h, C1_summary_invariants _ _ _ _ _ _ _ _ _ _ _ _ h⟩

/-! ### Claim C8: build timeout -/

lemma buildServe_error_not_running (bR : RunResult) (sOk : Bool) (port : Nat) (e : RpcErr)
    (h : (buildServe bR sOk port).1 = .error e) :
    (buildServe bR sOk port).2 ≠ ServerState.running := by
  unfold buildServe buildServeTry at h ⊢
  by_cases h1 : bR.timedOut = true
  · simp [h1]
  · by_cases h2 : bR.code ≠ 0
    · simp [h1, h2]
    · by_cases h3 : sOk = true
      · simp [h1, h2, h3] at h
      · simp [h1, h2, h3]

/-- Claim C8: if the staging build step times out, `diff` throws the
structured -32008 error carrying the step name and the 300000 ms timeout
budget, no server process is left running — the catch handler kills any
spawned server before the error propagates (second conjunct, for every
build/serve outcome) — and no per-route artifact folders are written. -/
theorem C8_build_timeout (fsys : FS) (runner : List String → RunResult)
    (buildRes : RunResult) (serveOk : Bool) (port : Nat) (pm : PixelMatcher)
    (routes : List (RouteInfo × RouteEnv)) (threshold : ℚ)
    (hpre : diffPreconditions fsys runner = .ok ())
    (htimeout : buildRes.timedOut = true) :
    diffRun fsys runner buildRes serveOk port pm routes threshold =
        (.error { code := -32008
                  message := "visual diff timed out running npm run build in staging"
                  data := some (.stepTimeout "npm run build" 300000) },
          .notSpawned, []) ∧
      (∀ bR sOk (e : RpcErr), (buildServe bR sOk port).1 = .error e →
        (buildServe bR sOk port).2 ≠ ServerState.running) := by
  constructor
  · unfold diffRun
    rw [hpre]
    unfold buildServe buildServeTry
    rw [htimeout]
    simp
  · intro bR sOk e h
    exact buildServe_error_not_running bR sOk port e h

/-- Claim C8 witness: a concrete run whose build step timed out. -/
theorem C8_build_timeout_witness :
    diffPreconditions ⟨fun _ => true⟩ runnerStub = .ok () ∧
      (RunResult.mk 0 "" "" true).timedOut = true ∧
      diffRun ⟨fun _ => true⟩ runnerStub (RunResult.mk 0 "" "" true) true 3100 pmStub []
          (1 / 2) =
        (.error { code := -32008
                  message := "visual diff timed out running npm run build in staging"
                  data := some (.stepTimeout "npm run build" 300000) },
          .notSpawned, []) := by
  refine ⟨rfl, rfl, ?_⟩
  exact (C8_build_timeout ⟨fun _ => true⟩ runnerStub (RunResult.mk 0 "" "" true) true 3100
    pmStub [] (1 / 2) rfl rfl).1

end Site2TS
